import Mathlib

/-
Verification of the match-scoring / recommendation core of the `sorority`
dating-platform backend, as a shallow embedding in Lean 4.

Source files modelled:
  - backend/profiles/recommendation_engine.py  (calculate_similarity)
  - backend/events/ai_matching.py              (EnhancedFeatureVector,
                                                ExplainableMatcher,
                                                TrustVerificationSystem)
  - backend/profiles/views.py                  (profile_recommendations)

Modelling conventions:
  - Python floats are modelled as exact rationals (all the arithmetic of the
    source is exact except the cosine, whose square root is modelled in the
    real numbers).
  - Django ORM query results are passed in as explicit lists: the base
    candidate queryset of `profile_recommendations` (age / block / location
    filters, which are external collaborators of the core) is a parameter,
    as are the requester's swipe list and the stored feature vectors.
  - Python `list.sort(key=..., reverse=True)` first evaluates the key on
    every element in list order (a raised exception aborts the sort), then
    performs a stable descending sort on the keys; that is modelled by an
    explicit decoration pass returning `Except` followed by a stable
    insertion sort.
  - `datetime` values are integers (comparison only); Python's
    `None > datetime` raising `TypeError` is modelled by `Except.error`.
-/

namespace Sorority

/-! ## SimilarityScorer: profiles/recommendation_engine.py, calculate_similarity -/

/-- A stored JSON feature vector: a Python dict from string keys to numbers.
Keys are unique (dict semantics). -/
abbrev FeatVec := List (String × ℚ)

/-- Dict access `v[k]` (0 if the key is absent; in the source the key is
always present when accessed, since access is restricted to common keys). -/
def dictGet (v : FeatVec) (k : String) : ℚ :=
  match v.find? (fun p => p.1 = k) with
  | some p => p.2
  | none => 0

/-- Python `set(vector1.keys()) & set(vector2.keys())`.  The source then
sorts the keys; the order of the key list does not affect any of the sums
below, so the sort is omitted. -/
def commonKeys (v1 v2 : FeatVec) : List String :=
  ((v1.map Prod.fst).filter (fun k => (v2.map Prod.fst).contains k)).dedup

/-- `np.dot(v1, v2)` over the arrays restricted to the common keys. -/
def dotProduct (v1 v2 : FeatVec) : ℚ :=
  ((commonKeys v1 v2).map (fun k => dictGet v1 k * dictGet v2 k)).sum

/-- Squared Euclidean norm of `v` restricted to the common keys of `v1`,`v2`
(`np.linalg.norm` is the square root of this). -/
def restrictedNormSq (v1 v2 v : FeatVec) : ℚ :=
  ((commonKeys v1 v2).map (fun k => dictGet v k ^ 2)).sum

/-- `calculate_similarity(vector1, vector2)` from
profiles/recommendation_engine.py:
return 0.0 on empty key intersection; compute the two norms; return 0.0 if
either norm is 0 (`norm == 0` for a float norm of an exact vector holds
exactly when the sum of squares is 0, which is the decidable test used
here); otherwise return the cosine.  The value is a real number because of
the square roots. -/
noncomputable def calculate_similarity (v1 v2 : FeatVec) : ℝ :=
  if commonKeys v1 v2 = [] then 0
  else
    if restrictedNormSq v1 v2 v1 = 0 ∨ restrictedNormSq v1 v2 v2 = 0 then 0
    else (dotProduct v1 v2 : ℝ) /
      (Real.sqrt (restrictedNormSq v1 v2 v1) * Real.sqrt (restrictedNormSq v1 v2 v2))

/-! ## TrustVerificationSystem: events/ai_matching.py -/

/-- The verification state of a user as read by `TrustVerificationSystem`:
`user.is_verified` (email), `user.profile` truthiness, and
`user.profile.photos.filter(is_primary=True).exists()`. -/
structure TrustUser where
  is_verified : Bool
  hasProfile : Bool
  hasPrimaryPhoto : Bool
deriving DecidableEq

/-- `TRUST_LEVELS[level]['requirements']`. -/
def trustRequirements : ℕ → List String
  | 0 => []
  | 1 => ["email_verified"]
  | 2 => ["email_verified", "photo_verified"]
  | 3 => ["email_verified", "photo_verified", "id_verified"]
  | 4 => ["email_verified", "photo_verified", "id_verified", "behavioral_trust"]
  | _ => []

/-- `TRUST_LEVELS[level]['capabilities']`. -/
def trustCapabilities : ℕ → List String
  | 0 => ["browse"]
  | 1 => ["browse", "chat"]
  | 2 => ["browse", "chat", "video"]
  | 3 => ["browse", "chat", "video", "boost_priority"]
  | 4 => ["browse", "chat", "video", "boost_priority", "featured"]
  | _ => []

/-- `TrustVerificationSystem.assess_trust_level(user)`: start at 0, raise to
1 on `user.is_verified`, raise to 2 on a primary photo (no email condition
on this check in the source), cap at 4.  The id-verification and
behavioral-trust checks are absent in the source ("Additional checks would
go here"). -/
def assess_trust_level (u : TrustUser) : ℕ :=
  let level : ℕ := 0
  let level : ℕ := if u.is_verified then max level 1 else level
  let level : ℕ := if u.hasProfile && u.hasPrimaryPhoto then max level 2 else level
  min level 4

/-- `TrustVerificationSystem.can_access_feature(user, feature)`. -/
def can_access_feature (u : TrustUser) (feature : String) : Bool :=
  (trustCapabilities (assess_trust_level u)).contains feature

/-- Truth of a named verification flag for a user, for comparing the code
against the spec's reading of `TRUST_LEVELS`: `email_verified` is
`user.is_verified`, `photo_verified` is the primary-photo check; the data
model has no id-verification or behavioral-trust flag, so those never
hold. -/
def holdsFlag (u : TrustUser) : String → Bool
  | "email_verified" => u.is_verified
  | "photo_verified" => u.hasProfile && u.hasPrimaryPhoto
  | _ => false

/-- All of level `l`'s prerequisite flags hold for `u`. -/
def meetsRequirements (u : TrustUser) (l : ℕ) : Bool :=
  (trustRequirements l).all (holdsFlag u)

/-- The trust level the spec describes: the highest level (0-4) for which
all of that level's prerequisite verification flags hold.  (Requirement
lists are cumulative, so this is also the highest level reachable
"in order".) -/
def specHighestTrustLevel (u : TrustUser) : ℕ :=
  (((List.range 5).filter (meetsRequirements u)).foldl max 0)

/-! ## EnhancedFeatureVector: events/ai_matching.py (behavioral signals) -/

/-- A chat message as seen from one fixed user: whether the sender is the
*other* party (`msg.sender != self.user`) and the `created_at` timestamp in
seconds.  Conversations list their messages ordered by `created_at`. -/
structure Msg where
  fromOther : Bool
  created_at : ℚ
deriving DecidableEq

/-- The inner loop of `_calculate_reply_latencies` for one conversation:
walk the messages in order keeping `prev_time` (`none` initially); on a
message from the other party, if `prev_time` is set append
`min((created_at - prev_time)/60, 1440)` and then set `prev_time`; messages
sent by the user leave `prev_time` unchanged. -/
def convLatencies : Option ℚ → List Msg → List ℚ
  | _, [] => []
  | prev, m :: rest =>
    if m.fromOther then
      match prev with
      | some p => min ((m.created_at - p) / 60) 1440 :: convLatencies (some m.created_at) rest
      | none => convLatencies (some m.created_at) rest
    else convLatencies prev rest

/-- `_calculate_reply_latencies`: concatenate the per-conversation walks. -/
def calculate_reply_latencies (convs : List (List Msg)) : List ℚ :=
  (convs.map (convLatencies none)).flatten

/-- The `reply_latency_avg` entry of `_get_behavioral_signals`:
`sum(reply_latencies) / len(reply_latencies) if reply_latencies else 300`. -/
def reply_latency_avg (convs : List (List Msg)) : ℚ :=
  let ls := calculate_reply_latencies convs
  if ls.isEmpty then 300 else ls.sum / (ls.length : ℚ)

/-- The walk the spec describes for reply latency ("each time the *other*
party sends a message after the user's previous message, record the elapsed
minutes (capped at 1440)"): the accumulator is the time of the user's most
recent message; a message from the other party records the capped elapsed
minutes since it (when it exists) and a message from the user updates it. -/
def specConvLatencies : Option ℚ → List Msg → List ℚ
  | _, [] => []
  | lastUser, m :: rest =>
    if m.fromOther then
      (match lastUser with
       | some p => [min ((m.created_at - p) / 60) 1440]
       | none => []) ++ specConvLatencies lastUser rest
    else specConvLatencies (some m.created_at) rest

/-- Spec-described reply-latency observations over all conversations. -/
def specReplyLatencies (convs : List (List Msg)) : List ℚ :=
  (convs.map (specConvLatencies none)).flatten

/-- Spec-described reply-latency signal: average of the observations, or
the default 300 when there are none. -/
def specReplyLatencyAvg (convs : List (List Msg)) : ℚ :=
  let ls := specReplyLatencies convs
  if ls.isEmpty then 300 else ls.sum / (ls.length : ℚ)

/-- Timestamps of the other party's messages in one conversation. -/
def otherTimes (conv : List Msg) : List ℚ :=
  (conv.filter (fun m => m.fromOther)).map Msg.created_at

/-- Capped gaps from a previous time through a list of successive times. -/
def gapsFrom : ℚ → List ℚ → List ℚ
  | _, [] => []
  | p, t :: rest => min ((t - p) / 60) 1440 :: gapsFrom t rest

/-- What the source loop actually records for one conversation: the capped
gaps between consecutive messages of the *other* party (the user's own
messages are ignored entirely). -/
def othersGaps (conv : List Msg) : List ℚ :=
  match otherTimes conv with
  | [] => []
  | t :: rest => gapsFrom t rest

/-- A swipe action (`Swipe.action`). -/
inductive SwipeAction
  | like
  | passAction
  | superLike
deriving DecidableEq

/-- The inputs read by `_calculate_engagement_score`: the user's swipes of
the last 30 days (all actions: the source's `recent_likes` query has no
action filter), the count of messages the user sent in the last 30 days,
and the profile (when present) with its completion score, an integer
percentage in 0..100 (`calculate_completion_score`). -/
structure EngagementState where
  recentSwipes : List SwipeAction
  recentMessages : ℕ
  profileCompletion : Option ℕ
deriving DecidableEq

/-- `EnhancedFeatureVector._calculate_engagement_score`:
`activity_score = min((recent_likes + recent_messages) / 50, 1.0)` where
`recent_likes` counts all of the user's swipes of the last 30 days;
`score = activity_score * 0.7` plus, when a profile exists,
`(completion / 100) * 0.3`; returned as `min(score, 1.0)`. -/
def calculate_engagement_score (s : EngagementState) : ℚ :=
  let recent_likes : ℕ := s.recentSwipes.length
  let activity_score : ℚ := min (((recent_likes + s.recentMessages : ℕ) : ℚ) / 50) 1
  let score : ℚ := activity_score * (7/10)
  let score : ℚ :=
    match s.profileCompletion with
    | some completion => score + ((completion : ℚ) / 100) * (3/10)
    | none => score
  min score 1

/-- Count of `like` swipes among a swipe list. -/
def countLikes (l : List SwipeAction) : ℕ :=
  (l.filter (fun a => a = SwipeAction.like)).length

/-- The engagement score the spec describes: 0.7 times the normalized
30-day count of *likes* plus messages (capped at 50, scaled to [0,1]) plus
0.3 times the profile-completion fraction. -/
def specEngagementScore (s : EngagementState) : ℚ :=
  (7/10) * min (((countLikes s.recentSwipes + s.recentMessages : ℕ) : ℚ) / 50) 1
  + (3/10) * (((s.profileCompletion.getD 0 : ℕ) : ℚ) / 100)

/-- `EnhancedFeatureVector._calculate_trust_score`: base 0.5, +0.2 when
`user.is_verified`, +0.1 when the profile has a primary photo, clamped to
[0,1]. -/
def calculate_trust_score (u : TrustUser) : ℚ :=
  let score : ℚ := 1/2
  let score : ℚ := if u.is_verified then score + 2/10 else score
  let score : ℚ := if u.hasProfile && u.hasPrimaryPhoto then score + 1/10 else score
  max (min score 1) 0

/-! ## ExplainableMatcher: events/ai_matching.py -/

/-- The slice of the built feature-vector dict read by
`ExplainableMatcher`: `demographics.age`, `preferences.age_range`,
`interests` and `values` (the matcher turns the stored lists into sets, so
they are modelled as finite sets of interned identifiers),
`behavioral_signals.reply_latency_avg`, `behavioral_signals.like_rate`
(always present in a built vector, so the source's `.get` default 0.5 is
never used), and `trust_score`. -/
structure FeatureVector where
  age : ℤ
  ageRangeMin : ℤ
  ageRangeMax : ℤ
  interests : Finset ℕ
  vals : Finset ℕ
  reply_latency_avg : ℚ
  like_rate : ℚ
  trust_score : ℚ
deriving DecidableEq

/-- `user1_pref[0] <= user2_age <= user1_pref[1]`: does `v1`'s declared age
range contain `v2`'s age. -/
def agePrefMatch (v1 v2 : FeatureVector) : Bool :=
  decide (v1.ageRangeMin ≤ v2.age) && decide (v2.age ≤ v1.ageRangeMax)

/-- `_calculate_preference_alignment` (score only): +0.6 when both
directions' age ranges match, +0.3 when exactly one does, then the flat
+0.4 distance placeholder, capped at 1.0. -/
def preferenceAlignment (v1 v2 : FeatureVector) : ℚ :=
  let age_match_1 := agePrefMatch v1 v2
  let age_match_2 := agePrefMatch v2 v1
  let score : ℚ :=
    if age_match_1 && age_match_2 then 6/10
    else if age_match_1 || age_match_2 then 3/10
    else 0
  min (score + 4/10) 1

/-- `_calculate_interest_similarity` (score only): 0.5 when either interest
set is empty, otherwise the Jaccard index (with the source's guard
returning 0 on an empty union). -/
def interestSimilarity (v1 v2 : FeatureVector) : ℚ :=
  if v1.interests = ∅ ∨ v2.interests = ∅ then 1/2
  else
    let inter := v1.interests ∩ v2.interests
    let uni := v1.interests ∪ v2.interests
    if uni = ∅ then 0 else (inter.card : ℚ) / (uni.card : ℚ)

/-- `_calculate_values_compatibility` (score only): 0.5 when either value
set is empty, otherwise `|intersection| / max(|v1|, |v2|)`. -/
def valuesCompatibility (v1 v2 : FeatureVector) : ℚ :=
  if v1.vals = ∅ ∨ v2.vals = ∅ then 1/2
  else ((v1.vals ∩ v2.vals).card : ℚ) / ((max v1.vals.card v2.vals.card : ℕ) : ℚ)

/-- `_calculate_behavioral_compatibility` (score only): average of the
reply-latency closeness factor (0.8 if the gap is under 60 minutes, else
0.4) and the like-rate closeness factor (0.8 if the gap is under 0.2, else
0.4). -/
def behavioralCompatibility (v1 v2 : FeatureVector) : ℚ :=
  let latency_score : ℚ := if |v1.reply_latency_avg - v2.reply_latency_avg| < 60 then 8/10 else 4/10
  let engagement_score : ℚ := if |v1.like_rate - v2.like_rate| < 1/5 then 8/10 else 4/10
  (latency_score + engagement_score) / 2

/-- `_calculate_trust_safety_score` (score only): mean of the two trust
scores. -/
def trustSafetyScore (v1 v2 : FeatureVector) : ℚ :=
  (v1.trust_score + v2.trust_score) / 2

/-- `_calculate_activity_recency` (score only): the fixed placeholder
0.7. -/
def activityRecency (_v1 _v2 : FeatureVector) : ℚ := 7/10

/-- `ExplainableMatcher.calculate_match_score` (numeric result): the sum of
the six component scores weighted by `self.weights`
(0.25 / 0.20 / 0.20 / 0.15 / 0.10 / 0.10).  The reasons list is not
modelled; the claims under verification concern the numeric score. -/
def calculate_match_score (v1 v2 : FeatureVector) : ℚ :=
  preferenceAlignment v1 v2 * (25/100)
  + interestSimilarity v1 v2 * (20/100)
  + valuesCompatibility v1 v2 * (20/100)
  + behavioralCompatibility v1 v2 * (15/100)
  + trustSafetyScore v1 v2 * (10/100)
  + activityRecency v1 v2 * (10/100)

/-! ## RecommendationRanker: profiles/views.py, profile_recommendations -/

/-- A candidate row of the base queryset: the profile's user id, its
interest ids, its `boost_expiry` (`none` models SQL NULL / Python `None`),
and its stored `UserFeatureVector` row if any (`some []` models a present
row whose JSON dict is empty, which is falsy in Python). -/
structure Candidate where
  userId : ℕ
  interests : List ℕ
  boost_expiry : Option ℤ
  featureVector : Option FeatVec
deriving DecidableEq

/-- The requesting user's data read by `profile_recommendations`:
profile existence (`hasattr(user, 'profile')`), the profile's interest ids,
the stored feature vector row, and the ids of users already swiped on. -/
structure Requester where
  hasProfile : Bool
  interests : List ℕ
  featureVector : Option FeatVec
  swiped : List ℕ
deriving DecidableEq

/-- A raised Python exception. -/
inductive PyErr
  | typeError
deriving DecidableEq

/-- Descending lexicographic "greater or equal" on a `(boosted?, score)`
sort key: Python compares such tuples componentwise with `False < True`. -/
def keyGe {β : Type} [LinearOrder β] (a b : Bool × β) : Prop :=
  b.1 < a.1 ∨ (a.1 = b.1 ∧ b.2 ≤ a.2)

instance {β : Type} [LinearOrder β] (a b : Bool × β) : Decidable (keyGe a b) :=
  inferInstanceAs (Decidable (b.1 < a.1 ∨ (a.1 = b.1 ∧ b.2 ≤ a.2)))

/-- Python's `list.sort(key=..., reverse=True)` once all keys are computed:
a stable descending sort on the keys.  `List.insertionSort` with the total
preorder `keyGe` on keys places each element before the first
already-placed element whose key it is `keyGe`-related to, which reproduces
CPython's stable descending order exactly. -/
def pySortDesc {α β : Type} [LinearOrder β] (key : α → Bool × β) (l : List α) : List α :=
  List.insertionSort (fun x y => keyGe (key x) (key y)) l

/-- The boost test of the AI-path sort key:
`x['profile'].boost_expiry > timezone.now()` (the guarding
`hasattr(x['profile'], 'boost_expiry')` is always true for a `Profile`
model instance).  When `boost_expiry` is SQL NULL the comparison is
`None > datetime` and raises `TypeError`. -/
def pyBoostGtNow (now : ℤ) (c : Candidate) : Except PyErr Bool :=
  match c.boost_expiry with
  | some t => Except.ok (decide (now < t))
  | none => Except.error PyErr.typeError

/-- The `is_boosted` annotation of the fallback path
(`Case(When(boost_expiry__gt=timezone.now(), then=True), default=False)`):
in SQL a NULL `boost_expiry` falls through to the default `False` instead
of raising. -/
def isBoostedAnn (now : ℤ) (c : Candidate) : Bool :=
  match c.boost_expiry with
  | some t => decide (now < t)
  | none => false

/-- The `common_interests` annotation: the number of the candidate's
interest rows whose interest is among the requester's interests. -/
def commonInterestCount (userInterests : List ℕ) (c : Candidate) : ℕ :=
  (c.interests.filter (fun i => userInterests.contains i)).length

/-- Truthiness of a stored feature-vector row:
`candidate_feature_vector and candidate_feature_vector.feature_vector`. -/
def hasUsableVector : Option FeatVec → Bool
  | some (_ :: _) => true
  | _ => false

/-- Per-candidate similarity of the AI path: the scorer on the two stored
vectors when the candidate has a usable one, the default 0.5 otherwise.
`simf` abstracts `calculate_similarity` (whose value is a real number,
see above); every ranking theorem below holds for an arbitrary scorer. -/
def aiScore (simf : FeatVec → FeatVec → ℚ) (uvec : FeatVec) (c : Candidate) : ℚ :=
  match c.featureVector with
  | some (p :: v) => simf uvec (p :: v)
  | _ => 1/2

/-- The `(boosted?, similarity)` sort key finally attached to a candidate of
the AI path (in terms of which the ranking order is stated). -/
def aiKey (simf : FeatVec → FeatVec → ℚ) (now : ℤ) (uvec : FeatVec) (c : Candidate) : Bool × ℚ :=
  (isBoostedAnn now c, aiScore simf uvec c)

/-- The AI path's candidate pool: exclude candidates already swiped on; if
that leaves none, fall back to the full base queryset. -/
def aiCandidates (base : List Candidate) (swiped : List ℕ) : List Candidate :=
  let candidates0 := base.filter (fun c => !(swiped.contains c.userId))
  if candidates0.isEmpty then base else candidates0

/-- The `recommendations` list: each candidate paired with its similarity. -/
def aiScored (simf : FeatVec → FeatVec → ℚ) (uvec : FeatVec) (cands : List Candidate) :
    List (Candidate × ℚ) :=
  cands.map (fun c => (c, aiScore simf uvec c))

/-- Key decoration of `recommendations.sort(key=..., reverse=True)`: CPython
evaluates the key lambda once per element in list order; the first raised
exception aborts the whole sort. -/
def decorateKeys (now : ℤ) : List (Candidate × ℚ) → Except PyErr (List (Candidate × (Bool × ℚ)))
  | [] => Except.ok []
  | r :: rest =>
    match pyBoostGtNow now r.1 with
    | Except.error e => Except.error e
    | Except.ok b =>
      match decorateKeys now rest with
      | Except.error e => Except.error e
      | Except.ok ks => Except.ok ((r.1, (b, r.2)) :: ks)

/-- The AI-powered branch of `profile_recommendations`: build the pool,
score every candidate, sort descending on the `(boosted?, similarity)` key,
truncate to the top 10 and project out the profiles. -/
def aiRecommendations (simf : FeatVec → FeatVec → ℚ) (now : ℤ) (uvec : FeatVec)
    (base : List Candidate) (swiped : List ℕ) : Except PyErr (List Candidate) :=
  let recommendations := aiScored simf uvec (aiCandidates base swiped)
  match decorateKeys now recommendations with
  | Except.error e => Except.error e
  | Except.ok keyed =>
    Except.ok (((pySortDesc Prod.snd keyed).take 10).map Prod.fst)

/-- Ordering of the interest fallback branch,
`order_by('-is_boosted', '-common_interests', '?')`: a stable descending
sort on `(is_boosted, common_interests)`; the trailing random key is
modelled by the order of the input list. -/
def fallbackOrder (now : ℤ) (userInterests : List ℕ) (l : List Candidate) : List Candidate :=
  pySortDesc (fun c => (isBoostedAnn now c, (commonInterestCount userInterests c : ℚ))) l

/-- The interest-overlap fallback branch of `profile_recommendations`
(taken when the requester has no usable feature vector): annotate and order
the pool without the already-swiped users; if that pool is empty, reuse the
full base queryset; return the first 10. -/
def fallbackRecommendations (now : ℤ) (userInterests : List ℕ)
    (base : List Candidate) (swiped : List ℕ) : List Candidate :=
  let queryset := fallbackOrder now userInterests (base.filter (fun c => !(swiped.contains c.userId)))
  if queryset.isEmpty then (fallbackOrder now userInterests base).take 10
  else queryset.take 10

/-- `profile_recommendations(request)` from profiles/views.py, from the
point where the filtered base queryset is available (the age, block and
location filters ahead of it are external ORM collaborators and are
reflected in the `base` argument): an empty list when the user has no
profile; the interest fallback when the stored feature vector is absent or
empty; the AI-powered ranking otherwise. -/
def profile_recommendations (simf : FeatVec → FeatVec → ℚ) (now : ℤ)
    (req : Requester) (base : List Candidate) : Except PyErr (List Candidate) :=
  if !req.hasProfile then Except.ok []
  else
    match req.featureVector with
    | some (p :: uvec) => aiRecommendations simf now (p :: uvec) base req.swiped
    | _ => Except.ok (fallbackRecommendations now req.interests base req.swiped)

/-! ## Helper lemmas -/

theorem restrictedNormSq_nonneg (v1 v2 v : FeatVec) : 0 ≤ restrictedNormSq v1 v2 v := by
  unfold restrictedNormSq
  apply List.sum_nonneg
  intro x hx
  rcases List.mem_map.mp hx with ⟨k, _, rfl⟩
  positivity

theorem keyGe_total {β : Type} [LinearOrder β] (a b : Bool × β) : keyGe a b ∨ keyGe b a := by
  rcases lt_trichotomy a.1 b.1 with h | h | h
  · exact Or.inr (Or.inl h)
  · rcases le_total b.2 a.2 with h2 | h2
    · exact Or.inl (Or.inr ⟨h, h2⟩)
    · exact Or.inr (Or.inr ⟨h.symm, h2⟩)
  · exact Or.inl (Or.inl h)

theorem keyGe_trans {β : Type} [LinearOrder β] {a b c : Bool × β}
    (hab : keyGe a b) (hbc : keyGe b c) : keyGe a c := by
  rcases hab with h1 | ⟨h1, h1'⟩ <;> rcases hbc with h2 | ⟨h2, h2'⟩
  · exact Or.inl (h2.trans h1)
  · exact Or.inl (h2 ▸ h1)
  · exact Or.inl (h1 ▸ h2)
  · exact Or.inr ⟨h1.trans h2, h2'.trans h1'⟩

theorem pySortDesc_sorted {α β : Type} [LinearOrder β] (key : α → Bool × β) (l : List α) :
    List.Sorted (fun x y => keyGe (key x) (key y)) (pySortDesc key l) := by
  haveI : IsTotal α (fun x y => keyGe (key x) (key y)) := ⟨fun a b => keyGe_total _ _⟩
  haveI : IsTrans α (fun x y => keyGe (key x) (key y)) := ⟨fun a b c hab hbc => keyGe_trans hab hbc⟩
  exact List.sorted_insertionSort _ _

theorem pySortDesc_perm {α β : Type} [LinearOrder β] (key : α → Bool × β) (l : List α) :
    List.Perm (pySortDesc key l) l :=
  List.perm_insertionSort _ _

/-! ## Claim theorems -/

/-- C2, counterexample: a user who is not email-verified but has a profile
with a primary photo is assessed at level 2 by the code, while the level
described by the claim (the highest level all of whose prerequisite flags
hold, levels achieved in order) is 0 for this user. -/
theorem assess_trust_level_skips_email_prerequisite :
    assess_trust_level ⟨false, true, true⟩ = 2 ∧
    specHighestTrustLevel ⟨false, true, true⟩ = 0 := by decide

/-- C2, amended: `assess_trust_level` is the maximum of independent checks
(2 for a primary photo regardless of email verification, else 1 for email
verification, else 0); a user who is email-verified and has a primary photo
is assessed at level >= 2 and never reaches level 3 (no id-verification
check exists in the code). -/
theorem assess_trust_level_characterization :
    ∀ u : TrustUser,
      assess_trust_level u =
        (if u.hasProfile && u.hasPrimaryPhoto then 2 else if u.is_verified then 1 else 0) ∧
      (u.is_verified = true → (u.hasProfile && u.hasPrimaryPhoto) = true →
        2 ≤ assess_trust_level u ∧ assess_trust_level u < 3) := by
  intro u
  obtain ⟨v, hp, pp⟩ := u
  cases v <;> cases hp <;> cases pp <;> exact (by decide)

/-- C2, witness: the amended characterization evaluated on an
email-verified user with a primary photo. -/
theorem assess_trust_level_characterization_witness :
    assess_trust_level ⟨true, true, true⟩ = 2 ∧
    (2 ≤ assess_trust_level ⟨true, true, true⟩ ∧ assess_trust_level ⟨true, true, true⟩ < 3) := by
  have h := assess_trust_level_characterization ⟨true, true, true⟩
  exact ⟨h.1.trans (by decide), h.2 rfl rfl⟩

/-- C9: for every verification-flag combination the assessed trust level is
at most 2, and consequently `can_access_feature` denies `boost_priority`
and `featured` to every user. -/
theorem assess_trust_level_le_two :
    ∀ u : TrustUser,
      assess_trust_level u ≤ 2 ∧
      can_access_feature u "boost_priority" = false ∧
      can_access_feature u "featured" = false := by
  intro u
  obtain ⟨v, hp, pp⟩ := u
  cases v <;> cases hp <;> cases pp <;> exact (by decide)

/-- C8, counterexample: a user whose last-30-day activity is 50 passes (no
likes), no messages, and a 0 completion score gets engagement score 0.7
from the code (the 30-day query counts every swipe action), while the
claimed formula (likes plus messages) gives 0. -/
theorem engagement_score_counts_all_swipes :
    calculate_engagement_score ⟨List.replicate 50 SwipeAction.passAction, 0, some 0⟩ = 7/10 ∧
    specEngagementScore ⟨List.replicate 50 SwipeAction.passAction, 0, some 0⟩ = 0 := by
  have hall : (List.replicate 50 SwipeAction.passAction).length = 50 := by decide
  have hlikes : countLikes (List.replicate 50 SwipeAction.passAction) = 0 := by decide
  unfold calculate_engagement_score specEngagementScore
  rw [hlikes, hall]
  norm_num

/-- C8, amended: the engagement score equals 0.7 times the normalized
30-day count of swipes of any action plus messages (capped at 50, scaled to
[0,1]) plus 0.3 times the profile-completion fraction (when a profile
exists), and it always lies in [0,1]. -/
theorem engagement_score_formula :
    ∀ s : EngagementState,
      (0 ≤ calculate_engagement_score s ∧ calculate_engagement_score s ≤ 1) ∧
      (∀ c : ℕ, s.profileCompletion = some c → c ≤ 100 →
        calculate_engagement_score s =
          (7/10) * min (((s.recentSwipes.length + s.recentMessages : ℕ) : ℚ) / 50) 1
          + (3/10) * ((c : ℚ) / 100)) := by
  intro s
  have ha0 : (0:ℚ) ≤ min (((s.recentSwipes.length + s.recentMessages : ℕ) : ℚ) / 50) 1 :=
    le_min (by positivity) zero_le_one
  have ha1 : min (((s.recentSwipes.length + s.recentMessages : ℕ) : ℚ) / 50) 1 ≤ 1 :=
    min_le_right _ _
  constructor
  · unfold calculate_engagement_score
    cases hpc : s.profileCompletion with
    | none =>
      simp only
      constructor
      · exact le_min (by nlinarith) zero_le_one
      · exact min_le_right _ _
    | some c =>
      simp only
      have hc0 : (0:ℚ) ≤ (c : ℚ) := by positivity
      constructor
      · exact le_min (by nlinarith) zero_le_one
      · exact min_le_right _ _
  · intro c hc hc100
    unfold calculate_engagement_score
    rw [hc]
    simp only
    have hcq : ((c : ℚ) / 100) ≤ 1 := by
      rw [div_le_one (by norm_num)]
      exact_mod_cast hc100.trans_eq rfl
    have hc0 : (0:ℚ) ≤ (c : ℚ) := by positivity
    rw [min_eq_left (by nlinarith)]
    ring

/-- C8, witness: the amended formula evaluated on a user with 20 recent
swipes, 10 recent messages and completion score 80. -/
theorem engagement_score_formula_witness :
    (0 ≤ calculate_engagement_score ⟨List.replicate 20 SwipeAction.like, 10, some 80⟩ ∧
      calculate_engagement_score ⟨List.replicate 20 SwipeAction.like, 10, some 80⟩ ≤ 1) ∧
    calculate_engagement_score ⟨List.replicate 20 SwipeAction.like, 10, some 80⟩ =
      (7/10) * min ((((List.replicate 20 SwipeAction.like).length + 10 : ℕ) : ℚ) / 50) 1
      + (3/10) * ((80 : ℚ) / 100) := by
  have h := engagement_score_formula ⟨List.replicate 20 SwipeAction.like, 10, some 80⟩
  exact ⟨h.1, h.2 80 rfl (by decide)⟩

theorem convLatencies_some (p : ℚ) (conv : List Msg) :
    convLatencies (some p) conv = gapsFrom p (otherTimes conv) := by
  induction conv generalizing p with
  | nil => rfl
  | cons m rest ih =>
    by_cases hm : m.fromOther
    · simp [convLatencies, otherTimes, gapsFrom, hm, ih]
    · simp [convLatencies, otherTimes, hm, ih]

theorem convLatencies_none_eq_othersGaps (conv : List Msg) :
    convLatencies none conv = othersGaps conv := by
  induction conv with
  | nil => rfl
  | cons m rest ih =>
    by_cases hm : m.fromOther
    · simp [convLatencies, othersGaps, otherTimes, hm, convLatencies_some]
    · simpa [convLatencies, othersGaps, otherTimes, hm] using ih

theorem convLatencies_le_1440 :
    ∀ (prev : Option ℚ) (conv : List Msg), ∀ x ∈ convLatencies prev conv, x ≤ 1440 := by
  intro prev conv
  induction conv generalizing prev with
  | nil => intro x hx; simp [convLatencies] at hx
  | cons m rest ih =>
    intro x hx
    by_cases hm : m.fromOther
    · cases prev with
      | some p =>
        simp only [convLatencies, hm, if_true, List.mem_cons] at hx
        rcases hx with rfl | hx
        · exact min_le_right _ _
        · exact ih _ x hx
      | none =>
        simp only [convLatencies, hm, if_true] at hx
        exact ih _ x hx
    · simp only [convLatencies, hm, if_false] at hx
      exact ih _ x hx

/-- C3, counterexample: in the conversation (other at second 0, user at
second 600, other at second 1200) the claimed walk records the 10-minute
gap back to the user's previous message, but the code ignores the user's
messages and records the 20-minute gap back to the other party's previous
message, so the resulting signal is 20, not 10. -/
theorem reply_latency_ignores_user_messages :
    calculate_reply_latencies [[⟨true, 0⟩, ⟨false, 600⟩, ⟨true, 1200⟩]] = [20] ∧
    reply_latency_avg [[⟨true, 0⟩, ⟨false, 600⟩, ⟨true, 1200⟩]] = 20 ∧
    specReplyLatencies [[⟨true, 0⟩, ⟨false, 600⟩, ⟨true, 1200⟩]] = [10] ∧
    specReplyLatencyAvg [[⟨true, 0⟩, ⟨false, 600⟩, ⟨true, 1200⟩]] = 10 := by
  have h1 : calculate_reply_latencies [[⟨true, 0⟩, ⟨false, 600⟩, ⟨true, 1200⟩]] = [20] := by
    simp [calculate_reply_latencies, convLatencies]
    norm_num [min_def]
  have h2 : specReplyLatencies [[⟨true, 0⟩, ⟨false, 600⟩, ⟨true, 1200⟩]] = [10] := by
    simp [specReplyLatencies, specConvLatencies]
    norm_num [min_def]
  refine ⟨h1, ?_, h2, ?_⟩
  · simp [reply_latency_avg, h1]
  · simp [specReplyLatencyAvg, h2]

/-- C3, amended: per conversation the code records the capped gap between
each pair of consecutive messages of the *other* party (the user's own
messages are ignored; the claim's "after the user's previous message" is
what fails); every observation is capped at 1440 (a 2000-minute gap is
recorded as 1440), and the signal is the average of the observations with
default 300 when there are none. -/
theorem reply_latency_signal_characterization :
    ∀ (convs : List (List Msg)) (conv : List Msg),
      convLatencies none conv = othersGaps conv ∧
      (∀ x ∈ calculate_reply_latencies convs, x ≤ 1440) ∧
      (calculate_reply_latencies convs = [] → reply_latency_avg convs = 300) ∧
      (calculate_reply_latencies convs ≠ [] →
        reply_latency_avg convs =
          (calculate_reply_latencies convs).sum / ((calculate_reply_latencies convs).length : ℚ)) ∧
      convLatencies none [⟨true, 0⟩, ⟨true, 120000⟩] = [1440] := by
  intro convs conv
  refine ⟨convLatencies_none_eq_othersGaps conv, ?_, ?_, ?_, ?_⟩
  · intro x hx
    unfold calculate_reply_latencies at hx
    rcases List.mem_flatten.mp hx with ⟨l, hl, hxl⟩
    rcases List.mem_map.mp hl with ⟨c, _, rfl⟩
    exact convLatencies_le_1440 none c x hxl
  · intro h
    simp [reply_latency_avg, h]
  · intro h
    rw [reply_latency_avg]
    simp only [List.isEmpty_iff]
    rw [if_neg h]
  · simp [convLatencies]
    norm_num [min_def]

/-- C3, witness: the amended characterization evaluated on the
single-conversation history (other at 0s, user at 600s, other at 1200s):
the walk matches the consecutive-other-gaps reading, the no-observation
default is 300, and the 2000-minute gap is recorded as 1440. -/
theorem reply_latency_signal_characterization_witness :
    convLatencies none [⟨true, 0⟩, ⟨false, 600⟩, ⟨true, 1200⟩] =
      othersGaps [⟨true, 0⟩, ⟨false, 600⟩, ⟨true, 1200⟩] ∧
    reply_latency_avg [] = 300 ∧
    convLatencies none [⟨true, 0⟩, ⟨true, 120000⟩] = [1440] := by
  have h := reply_latency_signal_characterization [] [⟨true, 0⟩, ⟨false, 600⟩, ⟨true, 1200⟩]
  exact ⟨h.1, h.2.2.1 rfl, h.2.2.2.2⟩

theorem preferenceAlignment_mem (v1 v2 : FeatureVector) :
    0 ≤ preferenceAlignment v1 v2 ∧ preferenceAlignment v1 v2 ≤ 1 := by
  unfold preferenceAlignment
  constructor
  · apply le_min _ zero_le_one
    split_ifs <;> norm_num
  · exact min_le_right _ _

theorem interestSimilarity_mem (v1 v2 : FeatureVector) :
    0 ≤ interestSimilarity v1 v2 ∧ interestSimilarity v1 v2 ≤ 1 := by
  simp only [interestSimilarity]
  split_ifs with h1 h2
  · norm_num
  · norm_num
  · have hcard : 0 < ((v1.interests ∪ v2.interests).card : ℚ) := by
      have : (v1.interests ∪ v2.interests).Nonempty := Finset.nonempty_iff_ne_empty.mpr h2
      exact_mod_cast Finset.card_pos.mpr this
    constructor
    · positivity
    · rw [div_le_one hcard]
      exact_mod_cast Finset.card_le_card (Finset.inter_subset_union)

theorem valuesCompatibility_mem (v1 v2 : FeatureVector) :
    0 ≤ valuesCompatibility v1 v2 ∧ valuesCompatibility v1 v2 ≤ 1 := by
  unfold valuesCompatibility
  split_ifs with h1
  · norm_num
  · push_neg at h1
    have hm : 0 < ((max v1.vals.card v2.vals.card : ℕ) : ℚ) := by
      have : 0 < v1.vals.card := Finset.card_pos.mpr (Finset.nonempty_iff_ne_empty.mpr h1.1)
      exact_mod_cast lt_of_lt_of_le this (le_max_left _ _)
    constructor
    · positivity
    · rw [div_le_one hm]
      have : (v1.vals ∩ v2.vals).card ≤ v1.vals.card :=
        Finset.card_le_card (Finset.inter_subset_left)
      exact_mod_cast this.trans (le_max_left _ _)

theorem behavioralCompatibility_mem (v1 v2 : FeatureVector) :
    0 ≤ behavioralCompatibility v1 v2 ∧ behavioralCompatibility v1 v2 ≤ 1 := by
  unfold behavioralCompatibility
  split_ifs <;> norm_num

theorem trustSafetyScore_mem (v1 v2 : FeatureVector)
    (h1 : 0 ≤ v1.trust_score) (h1' : v1.trust_score ≤ 1)
    (h2 : 0 ≤ v2.trust_score) (h2' : v2.trust_score ≤ 1) :
    0 ≤ trustSafetyScore v1 v2 ∧ trustSafetyScore v1 v2 ≤ 1 := by
  unfold trustSafetyScore
  constructor <;> linarith

/-- C4: the final match score is the weighted sum of the six component
scores with the fixed weights 0.25 / 0.20 / 0.20 / 0.15 / 0.10 / 0.10
(which sum to 1), each component lies in [0,1] (the trust inputs are in
[0,1] for every vector the builder produces, see
`calculate_trust_score`), and therefore the final score lies in [0,1]. -/
theorem calculate_match_score_weighted_sum_in_unit :
    ∀ v1 v2 : FeatureVector,
      0 ≤ v1.trust_score → v1.trust_score ≤ 1 →
      0 ≤ v2.trust_score → v2.trust_score ≤ 1 →
      calculate_match_score v1 v2 =
        preferenceAlignment v1 v2 * (25/100) + interestSimilarity v1 v2 * (20/100)
        + valuesCompatibility v1 v2 * (20/100) + behavioralCompatibility v1 v2 * (15/100)
        + trustSafetyScore v1 v2 * (10/100) + activityRecency v1 v2 * (10/100) ∧
      ((25:ℚ)/100 + 20/100 + 20/100 + 15/100 + 10/100 + 10/100 = 1) ∧
      (0 ≤ preferenceAlignment v1 v2 ∧ preferenceAlignment v1 v2 ≤ 1) ∧
      (0 ≤ interestSimilarity v1 v2 ∧ interestSimilarity v1 v2 ≤ 1) ∧
      (0 ≤ valuesCompatibility v1 v2 ∧ valuesCompatibility v1 v2 ≤ 1) ∧
      (0 ≤ behavioralCompatibility v1 v2 ∧ behavioralCompatibility v1 v2 ≤ 1) ∧
      (0 ≤ trustSafetyScore v1 v2 ∧ trustSafetyScore v1 v2 ≤ 1) ∧
      (0 ≤ activityRecency v1 v2 ∧ activityRecency v1 v2 ≤ 1) ∧
      0 ≤ calculate_match_score v1 v2 ∧ calculate_match_score v1 v2 ≤ 1 := by
  intro v1 v2 ht1 ht1' ht2 ht2'
  obtain ⟨hp0, hp1⟩ := preferenceAlignment_mem v1 v2
  obtain ⟨hi0, hi1⟩ := interestSimilarity_mem v1 v2
  obtain ⟨hv0, hv1⟩ := valuesCompatibility_mem v1 v2
  obtain ⟨hb0, hb1⟩ := behavioralCompatibility_mem v1 v2
  obtain ⟨htr0, htr1⟩ := trustSafetyScore_mem v1 v2 ht1 ht1' ht2 ht2'
  have hr : activityRecency v1 v2 = 7/10 := rfl
  refine ⟨rfl, by norm_num, ⟨hp0, hp1⟩, ⟨hi0, hi1⟩, ⟨hv0, hv1⟩, ⟨hb0, hb1⟩,
    ⟨htr0, htr1⟩, ⟨by rw [hr]; norm_num, by rw [hr]; norm_num⟩, ?_, ?_⟩
  · unfold calculate_match_score
    rw [hr]
    nlinarith
  · unfold calculate_match_score
    rw [hr]
    nlinarith

/-- C4, witness: the weighted-sum characterization evaluated on two
concrete vectors whose trust scores are the builder's output for a fully
verified user (0.8). -/
theorem calculate_match_score_weighted_sum_witness :
    calculate_match_score ⟨30, 25, 35, {0, 1}, {0}, 100, 1/2, 4/5⟩
        ⟨32, 28, 40, {1, 2}, {0}, 120, 1/2, 4/5⟩ =
      preferenceAlignment ⟨30, 25, 35, {0, 1}, {0}, 100, 1/2, 4/5⟩ ⟨32, 28, 40, {1, 2}, {0}, 120, 1/2, 4/5⟩ * (25/100)
      + interestSimilarity ⟨30, 25, 35, {0, 1}, {0}, 100, 1/2, 4/5⟩ ⟨32, 28, 40, {1, 2}, {0}, 120, 1/2, 4/5⟩ * (20/100)
      + valuesCompatibility ⟨30, 25, 35, {0, 1}, {0}, 100, 1/2, 4/5⟩ ⟨32, 28, 40, {1, 2}, {0}, 120, 1/2, 4/5⟩ * (20/100)
      + behavioralCompatibility ⟨30, 25, 35, {0, 1}, {0}, 100, 1/2, 4/5⟩ ⟨32, 28, 40, {1, 2}, {0}, 120, 1/2, 4/5⟩ * (15/100)
      + trustSafetyScore ⟨30, 25, 35, {0, 1}, {0}, 100, 1/2, 4/5⟩ ⟨32, 28, 40, {1, 2}, {0}, 120, 1/2, 4/5⟩ * (10/100)
      + activityRecency ⟨30, 25, 35, {0, 1}, {0}, 100, 1/2, 4/5⟩ ⟨32, 28, 40, {1, 2}, {0}, 120, 1/2, 4/5⟩ * (10/100) ∧
    0 ≤ calculate_match_score ⟨30, 25, 35, {0, 1}, {0}, 100, 1/2, 4/5⟩ ⟨32, 28, 40, {1, 2}, {0}, 120, 1/2, 4/5⟩ ∧
    calculate_match_score ⟨30, 25, 35, {0, 1}, {0}, 100, 1/2, 4/5⟩ ⟨32, 28, 40, {1, 2}, {0}, 120, 1/2, 4/5⟩ ≤ 1 := by
  have h := calculate_match_score_weighted_sum_in_unit
    ⟨30, 25, 35, {0, 1}, {0}, 100, 1/2, 4/5⟩ ⟨32, 28, 40, {1, 2}, {0}, 120, 1/2, 4/5⟩
    (by norm_num) (by norm_num) (by norm_num) (by norm_num)
  exact ⟨h.1, h.2.2.2.2.2.2.2.2⟩

/-- C6: swapping the two argument vectors leaves every component score
unchanged (interest, values, behavioral, trust and recency are computed
from symmetric expressions; preference alignment checks both directions of
the age-range test) and hence the final numeric match score is identical
under swap. -/
theorem calculate_match_score_symmetric :
    ∀ v1 v2 : FeatureVector,
      interestSimilarity v1 v2 = interestSimilarity v2 v1 ∧
      valuesCompatibility v1 v2 = valuesCompatibility v2 v1 ∧
      behavioralCompatibility v1 v2 = behavioralCompatibility v2 v1 ∧
      trustSafetyScore v1 v2 = trustSafetyScore v2 v1 ∧
      activityRecency v1 v2 = activityRecency v2 v1 ∧
      preferenceAlignment v1 v2 = preferenceAlignment v2 v1 ∧
      calculate_match_score v1 v2 = calculate_match_score v2 v1 := by
  intro v1 v2
  have hi : interestSimilarity v1 v2 = interestSimilarity v2 v1 := by
    simp only [interestSimilarity, Finset.inter_comm v2.interests v1.interests,
      Finset.union_comm v2.interests v1.interests,
      @or_comm (v2.interests = ∅) (v1.interests = ∅)]
  have hv : valuesCompatibility v1 v2 = valuesCompatibility v2 v1 := by
    simp only [valuesCompatibility, Finset.inter_comm v2.vals v1.vals,
      max_comm v2.vals.card v1.vals.card, @or_comm (v2.vals = ∅) (v1.vals = ∅)]
  have hb : behavioralCompatibility v1 v2 = behavioralCompatibility v2 v1 := by
    unfold behavioralCompatibility
    rw [abs_sub_comm v2.reply_latency_avg v1.reply_latency_avg,
      abs_sub_comm v2.like_rate v1.like_rate]
  have ht : trustSafetyScore v1 v2 = trustSafetyScore v2 v1 := by
    unfold trustSafetyScore
    ring
  have hp : preferenceAlignment v1 v2 = preferenceAlignment v2 v1 := by
    cases hm1 : agePrefMatch v1 v2 <;> cases hm2 : agePrefMatch v2 v1 <;>
      simp [preferenceAlignment, hm1, hm2]
  refine ⟨hi, hv, hb, ht, rfl, hp, ?_⟩
  unfold calculate_match_score
  rw [hi, hv, hb, ht, hp]
  simp [activityRecency]

/-- C5: `calculate_similarity` restricts both vectors to the intersection
of their keys and returns 0.0 when that intersection is empty or when
either restricted vector's norm is zero, and otherwise returns the
standard cosine similarity over the shared keys, whose denominator (the
product of the two norms) is then provably nonzero. -/
theorem calculate_similarity_guards_and_cosine :
    ∀ v1 v2 : FeatVec,
      (commonKeys v1 v2 = [] → calculate_similarity v1 v2 = 0) ∧
      (Real.sqrt (restrictedNormSq v1 v2 v1) = 0 ∨ Real.sqrt (restrictedNormSq v1 v2 v2) = 0 →
        calculate_similarity v1 v2 = 0) ∧
      (commonKeys v1 v2 ≠ [] →
        Real.sqrt (restrictedNormSq v1 v2 v1) ≠ 0 → Real.sqrt (restrictedNormSq v1 v2 v2) ≠ 0 →
        Real.sqrt (restrictedNormSq v1 v2 v1) * Real.sqrt (restrictedNormSq v1 v2 v2) ≠ 0 ∧
        calculate_similarity v1 v2 = (dotProduct v1 v2 : ℝ) /
          (Real.sqrt (restrictedNormSq v1 v2 v1) * Real.sqrt (restrictedNormSq v1 v2 v2))) := by
  intro v1 v2
  have hsq : ∀ v : FeatVec, Real.sqrt ((restrictedNormSq v1 v2 v : ℚ) : ℝ) = 0 ↔
      restrictedNormSq v1 v2 v = 0 := by
    intro v
    constructor
    · intro h
      have hle : ((restrictedNormSq v1 v2 v : ℚ) : ℝ) ≤ 0 := Real.sqrt_eq_zero'.mp h
      have hge : (0:ℝ) ≤ ((restrictedNormSq v1 v2 v : ℚ) : ℝ) := by
        exact_mod_cast restrictedNormSq_nonneg v1 v2 v
      exact_mod_cast le_antisymm hle hge
    · intro h
      rw [h]
      simp
  refine ⟨?_, ?_, ?_⟩
  · intro h
    unfold calculate_similarity
    rw [if_pos h]
  · intro h
    have h' : restrictedNormSq v1 v2 v1 = 0 ∨ restrictedNormSq v1 v2 v2 = 0 := by
      rcases h with h | h
      · exact Or.inl ((hsq v1).mp h)
      · exact Or.inr ((hsq v2).mp h)
    unfold calculate_similarity
    by_cases h1 : commonKeys v1 v2 = []
    · rw [if_pos h1]
    · rw [if_neg h1, if_pos h']
  · intro hck hn1 hn2
    have h1 : restrictedNormSq v1 v2 v1 ≠ 0 := fun h => hn1 ((hsq v1).mpr h)
    have h2 : restrictedNormSq v1 v2 v2 ≠ 0 := fun h => hn2 ((hsq v2).mpr h)
    refine ⟨mul_ne_zero hn1 hn2, ?_⟩
    unfold calculate_similarity
    rw [if_neg hck, if_neg (by tauto)]

/-- C5, witness: the guards evaluated concretely: disjoint keys give 0,
an all-zero restricted vector gives 0, and on shared key "a" with values
3 and 4 the norms are nonzero and the value is the cosine 12/(3*4). -/
theorem calculate_similarity_guards_witness :
    calculate_similarity [("a", 1)] [("b", 1)] = 0 ∧
    calculate_similarity [("a", 0)] [("a", 5)] = 0 ∧
    (Real.sqrt (restrictedNormSq [("a", 3)] [("a", 4)] [("a", 3)]) *
        Real.sqrt (restrictedNormSq [("a", 3)] [("a", 4)] [("a", 4)]) ≠ 0 ∧
      calculate_similarity [("a", 3)] [("a", 4)] =
        (dotProduct [("a", 3)] [("a", 4)] : ℝ) /
          (Real.sqrt (restrictedNormSq [("a", 3)] [("a", 4)] [("a", 3)]) *
            Real.sqrt (restrictedNormSq [("a", 3)] [("a", 4)] [("a", 4)]))) := by
  refine ⟨?_, ?_, ?_⟩
  · exact (calculate_similarity_guards_and_cosine [("a", 1)] [("b", 1)]).1 (by decide)
  · refine (calculate_similarity_guards_and_cosine [("a", 0)] [("a", 5)]).2.1 (Or.inl ?_)
    have hck : commonKeys [("a", 0)] [("a", 5)] = ["a"] := by decide
    have h : restrictedNormSq [("a", 0)] [("a", 5)] [("a", 0)] = 0 := by
      rw [restrictedNormSq, hck]
      norm_num [dictGet]
    rw [h]
    simp
  · refine (calculate_similarity_guards_and_cosine [("a", 3)] [("a", 4)]).2.2 (by decide) ?_ ?_
    · have hck : commonKeys [("a", 3)] [("a", 4)] = ["a"] := by decide
      have h : restrictedNormSq [("a", 3)] [("a", 4)] [("a", 3)] = 9 := by
        rw [restrictedNormSq, hck]
        norm_num [dictGet]
      rw [h]
      positivity
    · have hck : commonKeys [("a", 3)] [("a", 4)] = ["a"] := by decide
      have h : restrictedNormSq [("a", 3)] [("a", 4)] [("a", 4)] = 16 := by
        rw [restrictedNormSq, hck]
        norm_num [dictGet]
      rw [h]
      positivity

theorem decorateKeys_ok (now : ℤ) (l : List (Candidate × ℚ))
    (h : ∀ r ∈ l, r.1.boost_expiry.isSome = true) :
    decorateKeys now l =
      Except.ok (l.map (fun r => (r.1, (isBoostedAnn now r.1, r.2)))) := by
  induction l with
  | nil => rfl
  | cons r rest ih =>
    obtain ⟨t, ht⟩ := Option.isSome_iff_exists.mp (h r (List.mem_cons_self r rest))
    have ihh := ih (fun x hx => h x (List.mem_cons_of_mem r hx))
    simp [decorateKeys, pyBoostGtNow, isBoostedAnn, ht, ihh]

theorem aiCandidates_subset (base : List Candidate) (swiped : List ℕ) :
    ∀ c ∈ aiCandidates base swiped, c ∈ base := by
  intro c hc
  simp only [aiCandidates] at hc
  split_ifs at hc
  · exact hc
  · exact List.mem_of_mem_filter hc

theorem aiScore_of_no_vector (simf : FeatVec → FeatVec → ℚ) (uvec : FeatVec) (c : Candidate)
    (h : hasUsableVector c.featureVector = false) : aiScore simf uvec c = 1/2 := by
  cases hfv : c.featureVector with
  | none => simp [aiScore, hfv]
  | some v =>
    cases v with
    | nil => simp [aiScore, hfv]
    | cons p rest =>
      rw [hfv] at h
      exact absurd h (by simp [hasUsableVector])

/-- C1, counterexample: on the claim's pool — scores [0.9, 0.4, 0.4],
boosted flags [false, true, false] (boost expiries in the past / future
relative to now = 0) — the AI ranking path returns the boosted 0.4
candidate first, then the 0.9 candidate, then the non-boosted 0.4
candidate: the sort key tuple puts boosted status first, so it is the
primary key, not the secondary one, and the claimed order (0.9 first) is
not produced. -/
theorem ai_ranking_orders_boosted_first :
    profile_recommendations (fun _ v => dictGet v "s") 0
        ⟨true, [], some [("f", 1)], []⟩
        [⟨1, [], some (-1), some [("s", 9/10)]⟩,
         ⟨2, [], some 5, some [("s", 4/10)]⟩,
         ⟨3, [], some (-1), some [("s", 4/10)]⟩] =
      Except.ok [⟨2, [], some 5, some [("s", 4/10)]⟩,
                 ⟨1, [], some (-1), some [("s", 9/10)]⟩,
                 ⟨3, [], some (-1), some [("s", 4/10)]⟩] ∧
    profile_recommendations (fun _ v => dictGet v "s") 0
        ⟨true, [], some [("f", 1)], []⟩
        [⟨1, [], some (-1), some [("s", 9/10)]⟩,
         ⟨2, [], some 5, some [("s", 4/10)]⟩,
         ⟨3, [], some (-1), some [("s", 4/10)]⟩] ≠
      Except.ok [⟨1, [], some (-1), some [("s", 9/10)]⟩,
                 ⟨2, [], some 5, some [("s", 4/10)]⟩,
                 ⟨3, [], some (-1), some [("s", 4/10)]⟩] := by
  have hmain : profile_recommendations (fun _ v => dictGet v "s") 0
      ⟨true, [], some [("f", 1)], []⟩
      [⟨1, [], some (-1), some [("s", 9/10)]⟩,
       ⟨2, [], some 5, some [("s", 4/10)]⟩,
       ⟨3, [], some (-1), some [("s", 4/10)]⟩] =
      Except.ok [⟨2, [], some 5, some [("s", 4/10)]⟩,
                 ⟨1, [], some (-1), some [("s", 9/10)]⟩,
                 ⟨3, [], some (-1), some [("s", 4/10)]⟩] := by
    have h1 : ¬ keyGe ((false : Bool), (9:ℚ)/10) ((true : Bool), (4:ℚ)/10) := by
      simp [keyGe]
    have h2 : keyGe ((true : Bool), (4:ℚ)/10) ((false : Bool), (4:ℚ)/10) := by
      simp [keyGe, Bool.lt_iff]
    have h3 : keyGe ((false : Bool), (9:ℚ)/10) ((false : Bool), (4:ℚ)/10) := by
      simp [keyGe]
      norm_num
    simp [profile_recommendations, aiRecommendations, aiScored, aiCandidates, aiScore,
      dictGet, decorateKeys, pyBoostGtNow, pySortDesc, List.insertionSort,
      List.orderedInsert, h1, h2, h3]
  constructor
  · exact hmain
  · rw [hmain]
    simp

/-- C1, amended: in the AI-powered ranking path (a requester with a
profile and a non-empty stored feature vector, every candidate with a
non-null boost expiry), the result is a list of at most 10 candidates from
the pool, ordered descending by the `(boosted status, similarity score)`
key — boosted status is the primary descending key and the similarity
score the secondary one; on the claim's example pool the order is the
boosted 0.4 candidate, then the 0.9 candidate, then the non-boosted 0.4
candidate. -/
theorem ai_ranking_sorted_boosted_primary :
    ∀ (simf : FeatVec → FeatVec → ℚ) (now : ℤ) (req : Requester)
      (base : List Candidate) (uvec : FeatVec),
      req.hasProfile = true →
      req.featureVector = some uvec →
      uvec ≠ [] →
      (∀ c ∈ base, c.boost_expiry.isSome = true) →
      ∃ l, profile_recommendations simf now req base = Except.ok l ∧
        l.length ≤ 10 ∧
        List.Sorted (fun a b => keyGe a b) (l.map (aiKey simf now uvec)) ∧
        ∀ c ∈ l, c ∈ aiCandidates base req.swiped := by
  intro simf now req base uvec hprof hfv hne hboost
  obtain ⟨p, rest, rfl⟩ : ∃ p rest, uvec = p :: rest := by
    cases uvec with
    | nil => exact absurd rfl hne
    | cons p rest => exact ⟨p, rest, rfl⟩
  have hpath : profile_recommendations simf now req base =
      aiRecommendations simf now (p :: rest) base req.swiped := by
    unfold profile_recommendations
    rw [hprof, hfv]
    rfl
  have hkeys : ∀ r ∈ aiScored simf (p :: rest) (aiCandidates base req.swiped),
      r.1.boost_expiry.isSome = true := by
    intro r hr
    rcases List.mem_map.mp hr with ⟨c, hc, rfl⟩
    exact hboost c (aiCandidates_subset base req.swiped c hc)
  have hdec := decorateKeys_ok now _ hkeys
  have hrec : aiRecommendations simf now (p :: rest) base req.swiped =
      Except.ok (((pySortDesc Prod.snd
        ((aiScored simf (p :: rest) (aiCandidates base req.swiped)).map
          (fun r => (r.1, (isBoostedAnn now r.1, r.2))))).take 10).map Prod.fst) := by
    simp only [aiRecommendations]
    rw [hdec]
  have hmem : ∀ e ∈ pySortDesc Prod.snd
      ((aiScored simf (p :: rest) (aiCandidates base req.swiped)).map
        (fun r => (r.1, (isBoostedAnn now r.1, r.2)))),
      aiKey simf now (p :: rest) e.1 = e.2 := by
    intro e he
    have he' := (pySortDesc_perm _ _).mem_iff.mp he
    rcases List.mem_map.mp he' with ⟨r, hr, rfl⟩
    rcases List.mem_map.mp hr with ⟨c, _, rfl⟩
    rfl
  refine ⟨_, hpath.trans hrec, ?_, ?_, ?_⟩
  · rw [List.length_map, List.length_take]
    exact min_le_left _ _
  · rw [List.map_map]
    have heq : ((pySortDesc Prod.snd
        ((aiScored simf (p :: rest) (aiCandidates base req.swiped)).map
          (fun r => (r.1, (isBoostedAnn now r.1, r.2))))).take 10).map
            (aiKey simf now (p :: rest) ∘ Prod.fst) =
        ((pySortDesc Prod.snd
        ((aiScored simf (p :: rest) (aiCandidates base req.swiped)).map
          (fun r => (r.1, (isBoostedAnn now r.1, r.2))))).take 10).map Prod.snd :=
      List.map_congr_left (fun e he => hmem e (List.mem_of_mem_take he))
    rw [heq]
    apply List.pairwise_map.mpr
    exact List.Pairwise.sublist (List.take_sublist _ _) (pySortDesc_sorted Prod.snd _)
  · intro c hc
    rcases List.mem_map.mp hc with ⟨e, he, rfl⟩
    have he' := (pySortDesc_perm _ _).mem_iff.mp (List.mem_of_mem_take he)
    rcases List.mem_map.mp he' with ⟨r, hr, rfl⟩
    rcases List.mem_map.mp hr with ⟨c', hc', rfl⟩
    exact hc'

/-- C1, witness: the sortedness and membership guarantees evaluated on the
example pool (all boost expiries non-null). -/
theorem ai_ranking_sorted_boosted_primary_witness :
    ∃ l, profile_recommendations (fun _ v => dictGet v "s") 0
        ⟨true, [], some [("f", 1)], []⟩
        [⟨1, [], some (-1), some [("s", 9/10)]⟩,
         ⟨2, [], some 5, some [("s", 4/10)]⟩,
         ⟨3, [], some (-1), some [("s", 4/10)]⟩] = Except.ok l ∧
      l.length ≤ 10 ∧
      List.Sorted (fun a b => keyGe a b)
        (l.map (aiKey (fun _ v => dictGet v "s") 0 [("f", 1)])) ∧
      ∀ c ∈ l, c ∈ aiCandidates
        [⟨1, [], some (-1), some [("s", 9/10)]⟩,
         ⟨2, [], some 5, some [("s", 4/10)]⟩,
         ⟨3, [], some (-1), some [("s", 4/10)]⟩] [] :=
  ai_ranking_sorted_boosted_primary (fun _ v => dictGet v "s") 0
    ⟨true, [], some [("f", 1)], []⟩ _ [("f", 1)] rfl rfl (by simp)
    (by intro c hc; fin_cases hc <;> rfl)

/-- C10: a candidate of the AI path whose stored feature vector row is
absent, or present with an empty dict, is not skipped: its entry in the
`recommendations` list carries the default similarity of exactly 0.5, the
list has one entry per pool candidate, and the final result is the top-10
truncation of the descending sort of that same list. -/
theorem ai_ranking_default_similarity_for_missing_vector :
    ∀ (simf : FeatVec → FeatVec → ℚ) (uvec : FeatVec) (base : List Candidate)
      (swiped : List ℕ) (c : Candidate),
      c ∈ aiCandidates base swiped →
      hasUsableVector c.featureVector = false →
      (c, (1:ℚ)/2) ∈ aiScored simf uvec (aiCandidates base swiped) ∧
      (aiScored simf uvec (aiCandidates base swiped)).length =
        (aiCandidates base swiped).length ∧
      ∀ (now : ℤ) (keyed : List (Candidate × (Bool × ℚ))),
        decorateKeys now (aiScored simf uvec (aiCandidates base swiped)) = Except.ok keyed →
        aiRecommendations simf now uvec base swiped =
          Except.ok (((pySortDesc Prod.snd keyed).take 10).map Prod.fst) := by
  intro simf uvec base swiped c hc hfv
  refine ⟨?_, List.length_map _ _, ?_⟩
  · have : (c, aiScore simf uvec c) ∈ aiScored simf uvec (aiCandidates base swiped) :=
      List.mem_map.mpr ⟨c, hc, rfl⟩
    rwa [aiScore_of_no_vector simf uvec c hfv] at this
  · intro now keyed hkeyed
    simp only [aiRecommendations]
    rw [hkeyed]

/-- C10, witness: with a two-candidate pool in which candidate 1 has no
stored vector, candidate 1's entry gets similarity 0.5, both candidates
are scored, and the result is the sorted truncation (candidate 1 even
ranks first here since the scorer gives candidate 2 a lower value). -/
theorem ai_ranking_default_similarity_witness :
    ((⟨1, [], some (-1), none⟩ : Candidate), (1:ℚ)/2) ∈
      aiScored (fun _ _ => 0) [("f", 1)]
        (aiCandidates [⟨1, [], some (-1), none⟩, ⟨2, [], some (-1), some [("s", 1)]⟩] []) ∧
    (aiScored (fun _ _ => 0) [("f", 1)]
        (aiCandidates [⟨1, [], some (-1), none⟩, ⟨2, [], some (-1), some [("s", 1)]⟩] [])).length =
      (aiCandidates [⟨1, [], some (-1), none⟩, ⟨2, [], some (-1), some [("s", 1)]⟩] []).length ∧
    ∀ (now : ℤ) (keyed : List (Candidate × (Bool × ℚ))),
      decorateKeys now (aiScored (fun _ _ => 0) [("f", 1)]
        (aiCandidates [⟨1, [], some (-1), none⟩, ⟨2, [], some (-1), some [("s", 1)]⟩] [])) =
          Except.ok keyed →
      aiRecommendations (fun _ _ => 0) now [("f", 1)]
          [⟨1, [], some (-1), none⟩, ⟨2, [], some (-1), some [("s", 1)]⟩] [] =
        Except.ok (((pySortDesc Prod.snd keyed).take 10).map Prod.fst) :=
  ai_ranking_default_similarity_for_missing_vector (fun _ _ => 0) [("f", 1)]
    [⟨1, [], some (-1), none⟩, ⟨2, [], some (-1), some [("s", 1)]⟩] []
    ⟨1, [], some (-1), none⟩ (by simp [aiCandidates]) rfl

/-- C7: the three missing-data cases the claim enumerates do return a
non-error (possibly empty) list, the swipe exclusion and its
include-previously-swiped fallback behave as claimed, but the endpoint CAN
raise: in the AI path, a candidate whose `boost_expiry` is NULL makes the
sort-key lambda evaluate `None > timezone.now()`, which raises `TypeError`
(the same pool is returned fine by the interest fallback path, where the
SQL `Case`/`When` annotation tolerates NULL). -/
theorem profile_recommendations_raises_on_null_boost :
    profile_recommendations (fun _ _ => (1:ℚ)/2) 0 ⟨true, [], some [("f", 1)], []⟩
        [⟨1, [], none, some [("s", 1)]⟩] = Except.error PyErr.typeError ∧
    profile_recommendations (fun _ _ => (1:ℚ)/2) 0 ⟨false, [], some [("f", 1)], []⟩
        [⟨1, [], none, some [("s", 1)]⟩] = Except.ok [] ∧
    profile_recommendations (fun _ _ => (1:ℚ)/2) 0 ⟨true, [], none, []⟩
        [⟨1, [], none, some [("s", 1)]⟩] = Except.ok [⟨1, [], none, some [("s", 1)]⟩] ∧
    profile_recommendations (fun _ _ => (1:ℚ)/2) 0 ⟨true, [], some [("f", 1)], []⟩ [] =
      Except.ok [] ∧
    profile_recommendations (fun _ _ => (1:ℚ)/2) 0 ⟨true, [], some [("f", 1)], [1]⟩
        [⟨1, [], some (-1), some [("s", 1)]⟩, ⟨2, [], some (-1), some [("s", 1)]⟩] =
      Except.ok [⟨2, [], some (-1), some [("s", 1)]⟩] ∧
    profile_recommendations (fun _ _ => (1:ℚ)/2) 0 ⟨true, [], some [("f", 1)], [1]⟩
        [⟨1, [], some (-1), some [("s", 1)]⟩] =
      Except.ok [⟨1, [], some (-1), some [("s", 1)]⟩] :=
  ⟨rfl, rfl, rfl, rfl, rfl, rfl⟩

end Sorority
